import Mathlib

/-!
# Verification of the GitHub holiday color detection pipeline

Shallow embedding of `.github/scripts/detect_github_holiday_colors.py`.
The script's component functions (classifier predicates, message
extractor, theme matcher, scheme generator) are embedded as total Lean
functions; Python `None`-or-value parameters become `Option`, and float
comparisons are replaced by exactly equivalent integer comparisons
(justified at each definition).  Definition names follow the script.

The orchestrator `main` has no executable embedding: its
result-construction statement (source lines 525-536) contains an
unmatched closing curly brace — a fatal Python SyntaxError for the
whole module, so the script can never be imported or run and emits
nothing on any input.  That statement is embedded verbatim as a string
(`mainResultStmtSource`) and its brace imbalance is proved.
-/

namespace HolidayDetect

/-! ## Hex color parsing

The script parses channels with `int(hex_color[1:3], 16)` etc.  We model a
total variant (malformed characters read as 0); every color the pipeline
handles is a well-formed 7-character `#RRGGBB` string.
-/

/-- Value of one hexadecimal digit character, 0 for anything else. -/
def hexDigitVal (c : Char) : Nat :=
  if '0' ≤ c ∧ c ≤ '9' then c.toNat - '0'.toNat
  else if 'a' ≤ c ∧ c ≤ 'f' then c.toNat - 'a'.toNat + 10
  else if 'A' ≤ c ∧ c ≤ 'F' then c.toNat - 'A'.toNat + 10
  else 0

/-- Two-hex-digit value starting at character index `i` of `s`. -/
def hexPairAt (s : String) (i : Nat) : Nat :=
  16 * hexDigitVal (s.data.getD i '0') + hexDigitVal (s.data.getD (i + 1) '0')

/-- Red channel of a `#RRGGBB` string (`int(hex_color[1:3], 16)`). -/
def redOf (s : String) : Nat := hexPairAt s 1

/-- Green channel of a `#RRGGBB` string (`int(hex_color[3:5], 16)`). -/
def greenOf (s : String) : Nat := hexPairAt s 3

/-- Blue channel of a `#RRGGBB` string (`int(hex_color[5:7], 16)`). -/
def blueOf (s : String) : Nat := hexPairAt s 5

/-! ## Color classifier

`is_red_ish` compares `r > g * 1.5`; `1.5` is a dyadic rational, so the
float product is exact for channels 0..255 and the comparison equals the
integer comparison `2*r > 3*g`.  `is_green_ish` compares `g > r * 1.2`;
`1.2` rounds to a double with relative error below `2^-54`, so for
`r ≤ 255` the product `r * 1.2` rounds to the double nearest `6*r/5`, and
comparison with the integer `g` agrees with `5*g > 6*r`.  `is_dark_color`
compares `(r+g+b)/3 < 80`, which for integer sums is exactly
`r+g+b < 240` (`240/3 = 80` is exact in binary floating point). -/

/-- Predicate `is_orange_ish`: `r > 200 and 100 < g < r and b < 150`. -/
def is_orange_ish (s : String) : Bool :=
  decide (200 < redOf s) && decide (100 < greenOf s) && decide (greenOf s < redOf s)
    && decide (blueOf s < 150)

/-- Predicate `is_dark_color`: mean channel brightness below 80. -/
def is_dark_color (s : String) : Bool :=
  decide (redOf s + greenOf s + blueOf s < 240)

/-- Predicate `is_red_ish`: `r > 150 and r > g * 1.5 and r > b * 1.5`. -/
def is_red_ish (s : String) : Bool :=
  decide (150 < redOf s) && decide (3 * greenOf s < 2 * redOf s)
    && decide (3 * blueOf s < 2 * redOf s)

/-- Predicate `is_green_ish`: `g > 150 and g > r * 1.2 and g > b * 1.2`. -/
def is_green_ish (s : String) : Bool :=
  decide (150 < greenOf s) && decide (6 * redOf s < 5 * greenOf s)
    && decide (6 * blueOf s < 5 * greenOf s)

/-! ## Themes -/

/-- A theme dict: `{'name': ..., 'description': ..., 'colors': [...]}`. -/
structure Theme where
  name : String
  description : String
  colors : List String
deriving DecidableEq, Repr

/-- Function `create_theme_from_name`: predefined palettes for five holidays;
any other name (e.g. `thanksgiving`, `new_year`) yields `none`. -/
def create_theme_from_name (holiday_name : String) : Option Theme :=
  if holiday_name = "halloween" then
    some ⟨"halloween", "Halloween Theme (Orange & Black)",
      ["#000000", "#8B4513", "#FF6347", "#FF8C00", "#FFA500", "#FFD700"]⟩
  else if holiday_name = "christmas" then
    some ⟨"christmas", "Christmas Theme (Red & Green)",
      ["#006400", "#228B22", "#DC143C", "#FF0000", "#FFD700", "#FFFFFF"]⟩
  else if holiday_name = "lunar_new_year" then
    some ⟨"lunar_new_year", "Lunar New Year Theme (Red & Gold)",
      ["#8B0000", "#DC143C", "#FF0000", "#FF6347", "#FFD700", "#FFA500"]⟩
  else if holiday_name = "pride" then
    some ⟨"pride", "Pride Month Theme (Rainbow)",
      ["#FF0000", "#FFA500", "#FFFF00", "#008000", "#0000FF", "#800080"]⟩
  else if holiday_name = "valentines" then
    some ⟨"valentines", "Valentine\x27s Day Theme (Pink & Red)",
      ["#FF1493", "#FF69B4", "#FFB6C1", "#DC143C", "#FF0000"]⟩
  else none

/-! ## Message extractor -/

/-- Does `text` start with `pat` (character lists)? -/
def startsWithChars : List Char → List Char → Bool
  | _, [] => true
  | [], _ :: _ => false
  | c :: cs, p :: ps => c == p && startsWithChars cs ps

/-- Does `pat` occur as a contiguous substring of `text`?  Models the
Python `pattern in content_lower` test. -/
def containsChars : List Char → List Char → Bool
  | [], pat => pat.isEmpty
  | c :: rest, pat => startsWithChars (c :: rest) pat || containsChars rest pat

/-- String-level substring containment. -/
def strContains (hay pat : String) : Bool := containsChars hay.data pat.data

/-- Lowercasing as in `content.lower()` (ASCII behavior, which covers every pattern the
script searches for). -/
def strLower (s : String) : String := ⟨s.data.map Char.toLower⟩

/-- The `holiday_messages` pattern table, in source order.  The emoji
entries are the script's mojibake literals (UTF-8 emoji bytes decoded as
single-byte characters), transcribed codepoint for codepoint. -/
def holiday_messages : List (String × List String) :=
  [ ("halloween",
      ["happy halloween", "halloween", "ðŸŽƒ", "trick or treat"]),
    ("christmas",
      ["merry christmas", "happy holidays", "season\x27s greetings",
       "ðŸŽ„", "ðŸŽ…"]),
    ("lunar_new_year",
      ["happy lunar new year", "happy new year", "lunar new year",
       "ðŸ§§", "ðŸ‰"]),
    ("valentines",
      ["happy valentine", "valentine\x27s day",
       "ðŸ’", "â¤ï¸"]),
    ("pride",
      ["happy pride", "pride month",
       "ðŸ³ï¸â€ðŸŒˆ"]),
    ("thanksgiving",
      ["happy thanksgiving", "thanksgiving", "ðŸ¦ƒ"]),
    ("new_year",
      ["happy new year", "ðŸŽ†", "ðŸŽŠ"]) ]

/-- Function `detect_holiday_message`: first holiday whose pattern list has a
pattern occurring in the lowercased content; `none` for empty content or
no match. -/
def detect_holiday_message (html_content : String) : Option String :=
  if html_content.isEmpty then none
  else
    let content_lower := strLower html_content
    holiday_messages.findSome? fun hp =>
      if hp.2.any (fun pat => strContains content_lower pat) then some hp.1 else none

/-! ## Theme matcher -/

/-- One entry of the `holiday_patterns` table in `detect_holiday_theme`. -/
structure HolidayPattern where
  name : String
  colors : List String
  startMonth : Nat
  startDay : Nat
  endMonth : Nat
  endDay : Nat
  description : String
deriving DecidableEq, Repr

/-- The `halloween` entry of `holiday_patterns` (Oct 1 – Nov 1). -/
def halloweenPattern : HolidayPattern :=
  ⟨"halloween",
    ["#FFA500", "#FF8C00", "#FF6347", "#8B4513", "#000000",
     "#FF4500", "#FF7F00", "#FFA07A", "#CD5C5C", "#8B0000"],
    10, 1, 11, 1, "Halloween Theme (Orange & Black)"⟩

/-- The `christmas` entry of `holiday_patterns` (Dec 1 – Dec 31). -/
def christmasPattern : HolidayPattern :=
  ⟨"christmas",
    ["#FF0000", "#00FF00", "#FFD700", "#FFFFFF", "#DC143C", "#228B22"],
    12, 1, 12, 31, "Christmas Theme (Red & Green)"⟩

/-- The `lunar_new_year` entry of `holiday_patterns` (Jan 20 – Feb 20). -/
def lunarNewYearPattern : HolidayPattern :=
  ⟨"lunar_new_year",
    ["#FF0000", "#FFD700", "#FFA500", "#DC143C", "#FF6347"],
    1, 20, 2, 20, "Lunar New Year Theme (Red & Gold)"⟩

/-- The `pride` entry of `holiday_patterns` (June). -/
def pridePattern : HolidayPattern :=
  ⟨"pride",
    ["#FF0000", "#FFA500", "#FFFF00", "#008000", "#0000FF", "#800080"],
    6, 1, 6, 30, "Pride Month Theme (Rainbow)"⟩

/-- The `holiday_patterns` table, in source (dict-insertion) order. -/
def holiday_patterns : List HolidayPattern :=
  [halloweenPattern, christmasPattern, lunarNewYearPattern, pridePattern]

/-- The in-range test of `detect_holiday_theme`: single-month,
forward multi-month, and year-wrapping cases. -/
def date_in_range (sm sd em ed month day : Nat) : Bool :=
  if sm = em then
    decide (month = sm) && decide (sd ≤ day) && decide (day ≤ ed)
  else if sm < em then
    (decide (month = sm) && decide (sd ≤ day))
      || (decide (month = em) && decide (day ≤ ed))
      || (decide (sm < month) && decide (month < em))
  else
    (decide (month = sm) && decide (sd ≤ day))
      || (decide (month = em) && decide (day ≤ ed))
      || (decide (sm < month) || decide (month < em))

/-- Overlap `len(set(tc) & set(dc))`: number of distinct colors common to the two
lists. -/
def overlapCount (tc dc : List String) : Nat :=
  (tc.dedup.filter fun c => dc.contains c).length

/-- The theme-specific color-family rule: halloween needs an orange-ish
and a dark color, christmas a red-ish and a green-ish color; no other
theme has such a rule. -/
def hue_rule_fires (name : String) (dc : List String) : Bool :=
  if name = "halloween" then dc.any is_orange_ish && dc.any is_dark_color
  else if name = "christmas" then dc.any is_red_ish && dc.any is_green_ish
  else false

/-- The per-pattern body of the loop in `detect_holiday_theme`: date
gate, then direct overlap (≥ 2), then the hue-family rule. -/
def match_holiday_pattern (p : HolidayPattern) (colors : List String)
    (month day : Nat) : Option Theme :=
  if date_in_range p.startMonth p.startDay p.endMonth p.endDay month day then
    if 2 ≤ overlapCount p.colors colors then
      some ⟨p.name, p.description, colors⟩
    else if hue_rule_fires p.name colors then
      some ⟨p.name, p.description, colors⟩
    else none
  else none

/-- GitHub's canonical light-mode default contribution palette. -/
def default_light : List String :=
  ["#EBEDF0", "#9BE9A8", "#40C463", "#30A14E", "#216E39"]

/-- GitHub's canonical dark-mode default contribution palette. -/
def default_dark : List String :=
  ["#161B22", "#0E4429", "#006D32", "#26A641", "#39D353"]

/-- Function `detect_holiday_theme`: `None` input or fewer than 3 colors is a null
result; otherwise the first date-active pattern matching by overlap or
hue rule wins; otherwise `custom_holiday` when the colors differ from
both default palettes; otherwise null. -/
def detect_holiday_theme (colors : Option (List String)) (month day : Nat) :
    Option Theme :=
  match colors with
  | none => none
  | some cs =>
    if cs.length < 3 then none
    else
      match holiday_patterns.findSome? (fun p => match_holiday_pattern p cs month day) with
      | some t => some t
      | none =>
        if overlapCount default_light cs < 2 ∧ overlapCount default_dark cs < 2 then
          some ⟨"custom_holiday", "Special GitHub Theme Detected", cs⟩
        else none

/-! ## Scheme generator -/

/-- Brightness sort key.  Python keys on `(r+g+b)/3` as a float; for
integer channel sums the order (and equalities) of `s/3` and `s`
coincide, so we key on the sum. -/
def brightness3 (s : String) : Nat := redOf s + greenOf s + blueOf s

/-- The brightness preorder the palette is sorted by. -/
def brightLE (a b : String) : Prop := brightness3 a ≤ brightness3 b

instance : DecidableRel brightLE := fun _ _ => Nat.decLe _ _

instance : IsTotal String brightLE := ⟨fun _ _ => Nat.le_total _ _⟩

instance : IsTrans String brightLE := ⟨fun _ _ _ => Nat.le_trans⟩

instance : IsRefl String brightLE := ⟨fun _ => Nat.le_refl _⟩

/-- A generated scheme: `{'style': ..., 'snake': ..., 'dots': [...]}`. -/
structure ColorScheme where
  style : String
  snake : String
  dots : List String
deriving DecidableEq, Repr

/-- Function `generate_color_scheme`: sort ascending by brightness, pad to ≥ 5 by
repeating the brightest, then pick dots and snake per mode.  Python's
`sorted` is stable; `List.insertionSort` is the matching stable sort. -/
def generate_color_scheme (theme : Option Theme) (mode : String) :
    Option ColorScheme :=
  match theme with
  | none => none
  | some t =>
    if t.colors.isEmpty then none
    else
      let base := List.insertionSort brightLE t.colors
      let sorted_colors := base ++ List.replicate (5 - base.length) (base.getLast?.getD "")
      if mode = "light" then
        some { style := t.description
               snake := sorted_colors.getLast?.getD ""
               dots := sorted_colors.drop (sorted_colors.length - 5) }
      else
        some { style := t.description
               snake :=
                 if 5 < sorted_colors.length then
                   sorted_colors.getD (sorted_colors.length / 2) ""
                 else sorted_colors.getLast?.getD ""
               dots := sorted_colors.take 5 }

/-! ## The orchestrator `main` (lines 433-538)

The script's `main` has no executable embedding: its final
result-construction statement (source lines 525-536) closes two curly
braces against the single one it opens, so the whole module is rejected
by the Python parser (`SyntaxError: unmatched brace` at line 536) and
can never be imported or run.  The statement's text is embedded
verbatim below and the imbalance is proved; the component functions
above are syntactically complete and are verified individually. -/

/-- Number of occurrences of the character `c` in the string `s`. -/
def countChar (c : Char) (s : String) : Nat :=
  (s.data.filter fun d => d == c).length

/-- Verbatim text of the `result = ...` statement of `main`, source
lines 525-536 of `detect_github_holiday_colors.py` (curly braces and
apostrophes are written as hexadecimal escapes).  None of the
statement's string literals contains a curly brace, so counting braces
over the raw text is exact: the statement opens one brace and closes
two, and the second closing brace is unmatched — a fatal Python
SyntaxError for the whole module. -/
def mainResultStmtSource : String :=
  "    result = \x7b\n        \x27holiday_detected\x27: True,\n        \x27theme_name\x27: theme[\x27name\x27],\n        \x27theme_description\x27: theme[\x27description\x27],\n        \x27light_color\x27: light_scheme[\x27snake\x27],\n        \x27dark_color\x27: dark_scheme[\x27snake\x27],\n        \x27light_dots\x27: \x27, \x27.join(light_scheme[\x27dots\x27]),\n        \x27dark_dots\x27: \x27, \x27.join(dark_scheme[\x27dots\x27]),\n        \x27all_colors\x27: theme[\x27colors\x27],\n        \x27detection_method\x27: detection_method,\n    \x7d\n    \x7d\n"

/-! ## Catalogs for the theme-name claims -/

/-- The closed theme catalog asserted by the specification
({halloween, christmas, lunar_new_year, valentines, pride,
custom_holiday, default}), stated here to compare against what the code
can actually emit. -/
def specThemeCatalog : List String :=
  ["halloween", "christmas", "lunar_new_year", "valentines", "pride",
   "custom_holiday", "default"]

/-! ## General helper lemmas -/

/-- In a brightness-sorted list every element is at most as bright as the
last one. -/
theorem sorted_brightLE_getLast :
    ∀ (l : List String), l.Sorted brightLE → ∀ (h : l ≠ []) (x : String), x ∈ l →
      brightness3 x ≤ brightness3 (l.getLast h)
  | [], _, h, _, _ => absurd rfl h
  | [a], _, _, x, hx => by
    simp only [List.mem_singleton] at hx
    subst hx
    exact Nat.le_refl _
  | a :: b :: l, hs, _, x, hx => by
    rw [List.getLast_cons (List.cons_ne_nil b l)]
    rcases List.mem_cons.mp hx with rfl | hx'
    · exact List.rel_of_sorted_cons hs _ (List.getLast_mem (List.cons_ne_nil b l))
    · exact sorted_brightLE_getLast (b :: l) hs.of_cons (List.cons_ne_nil b l) x hx'

/-- The last element of a replicate-padded list is the pad color. -/
theorem getLast?_append_replicate (l : List String) (k : Nat) :
    (l ++ List.replicate k (l.getLast?.getD "")).getLast?.getD ""
      = l.getLast?.getD "" := by
  cases k with
  | zero => simp
  | succ n => rw [List.replicate_succ', ← List.append_assoc, List.getLast?_append]; rfl

end HolidayDetect

namespace HolidayDetect

/-! ## Claim C1 -/

/-- C1: the pipeline cannot emit the claimed default record — or
anything else.  The result-construction statement of `main` opens one
curly brace and closes two; the unmatched closing brace is a fatal
Python SyntaxError, so the script never runs and no DetectionResult
(with `theme_name = "default"` and canonical dot sequences, or
otherwise) is ever produced. -/
theorem C1_mainSourceUnparseable :
    countChar '\x7b' mainResultStmtSource = 1 ∧
    countChar '\x7d' mainResultStmtSource = 2 := by decide

/-! ## Claim C3 -/

/-- C3 counterexample: on the valid color `#FF6500` (r=255, g=101, b=0)
both `is_orange_ish` and `is_red_ish` fire, so the three hue predicates
are not pairwise exclusive as claimed. -/
theorem C3_counterexample :
    is_orange_ish "#FF6500" = true ∧ is_red_ish "#FF6500" = true := by decide

/-- C3 (amended): `is_green_ish` is mutually exclusive with each of
`is_red_ish` and `is_orange_ish` on every color, but `is_orange_ish` and
`is_red_ish` can hold together (see the counterexample `#FF6500`). -/
theorem C3_greenExcludesRedAndOrange (s : String) :
    (is_red_ish s && is_green_ish s) = false ∧
    (is_orange_ish s && is_green_ish s) = false := by
  constructor
  · cases hr : is_red_ish s <;> cases hg : is_green_ish s <;> try rfl
    exfalso
    simp only [is_red_ish, is_green_ish, Bool.and_eq_true, decide_eq_true_eq] at hr hg
    omega
  · cases ho : is_orange_ish s <;> cases hg : is_green_ish s <;> try rfl
    exfalso
    simp only [is_orange_ish, is_green_ish, Bool.and_eq_true, decide_eq_true_eq] at ho hg
    omega

/-! ## Claim C2 -/

/-- C2: the predefined palette the claim's halloween instance would use
does exist in `create_theme_from_name`, but the script can never carry
a message theme into a DetectionResult: `main`'s result statement has
one opening against two closing braces, so the module fails to parse
and nothing is ever emitted. -/
theorem C2_messagePaletteExistsButNeverEmitted :
    create_theme_from_name "halloween"
      = some ⟨"halloween", "Halloween Theme (Orange & Black)",
          ["#000000", "#8B4513", "#FF6347", "#FF8C00", "#FFA500", "#FFD700"]⟩ ∧
    countChar '\x7b' mainResultStmtSource = 1 ∧
    countChar '\x7d' mainResultStmtSource = 2 := by decide

/-! ## Claim C4 -/

/-- C4: the message extractor itself produces `thanksgiving`, an
identifier outside the claimed closed seven-name catalog, yet the
pipeline can emit no theme identifier at all: `main`'s result statement
has one opening against two closing braces, so the module is a Python
SyntaxError and never runs. -/
theorem C4_extractorEscapesCatalogButNothingEmitted :
    detect_holiday_message "happy thanksgiving" = some "thanksgiving" ∧
    ("thanksgiving" : String) ∉ specThemeCatalog ∧
    countChar '\x7b' mainResultStmtSource = 1 ∧
    countChar '\x7d' mainResultStmtSource = 2 := by decide

/-! ## Claim C5 -/

/-- C5: the date-range test of the theme matcher handles the wrapping
range (12,20)–(1,5) on December 25 and January 2, as well as
single-month and forward multi-month ranges. -/
theorem C5_dateRangeSemantics :
    date_in_range 12 20 1 5 12 25 = true ∧ date_in_range 12 20 1 5 1 2 = true ∧
    date_in_range 12 1 12 31 12 25 = true ∧ date_in_range 10 1 11 1 10 15 = true := by
  decide

/-! ## Claim C6 -/

/-- C6 counterexample: on `{#FF0000, #228B22, #123456}` the direct
overlap with the christmas reference palette is 2 (not zero), and the
christmas hue rule would not even fire because no color is green-ish
(`#228B22` has green channel 139 ≤ 150) — the match is not produced by
the hue-predicate rule. -/
theorem C6_counterexample :
    overlapCount christmasPattern.colors ["#FF0000", "#228B22", "#123456"] = 2 ∧
    (["#FF0000", "#228B22", "#123456"].any is_green_ish) = false ∧
    hue_rule_fires "christmas" ["#FF0000", "#228B22", "#123456"] = false := by decide

/-- C6 (amended): for `{#FF0000, #228B22, #123456}` on any December date
the matcher returns `christmas`, but via the direct palette-overlap rule
(`#FF0000` and `#228B22` are both in the christmas reference palette, an
overlap of 2 ≥ 2), not via the hue-predicate rule. -/
theorem C6_decemberChristmasByOverlap (day : Nat) (h1 : 1 ≤ day) (h2 : day ≤ 31) :
    detect_holiday_theme (some ["#FF0000", "#228B22", "#123456"]) 12 day
      = some ⟨"christmas", "Christmas Theme (Red & Green)",
          ["#FF0000", "#228B22", "#123456"]⟩ ∧
    overlapCount christmasPattern.colors ["#FF0000", "#228B22", "#123456"] = 2 := by
  refine ⟨?_, by decide⟩
  interval_cases day <;> decide

/-- C6 witness: the December 25 instance. -/
theorem C6_witness :
    detect_holiday_theme (some ["#FF0000", "#228B22", "#123456"]) 12 25
      = some ⟨"christmas", "Christmas Theme (Red & Green)",
          ["#FF0000", "#228B22", "#123456"]⟩ ∧
    overlapCount christmasPattern.colors ["#FF0000", "#228B22", "#123456"] = 2 :=
  C6_decemberChristmasByOverlap 25 (by decide) (by decide)

/-! ## Claim C7 -/

/-- C7: an absent color set or fewer than 3 distinct extracted colors
makes `detect_holiday_theme` return the null result (and, being a total
function, it never raises). -/
theorem C7_insufficientEvidenceIsNull :
    (∀ month day, detect_holiday_theme none month day = none) ∧
    ∀ (cs : List String) (month day : Nat), cs.Nodup → cs.length < 3 →
      detect_holiday_theme (some cs) month day = none := by
  refine ⟨fun _ _ => rfl, fun cs month day _ hlen => ?_⟩
  simp [detect_holiday_theme, hlen]

/-- C7 witness: two distinct colors are below the evidence threshold and
yield the null result. -/
theorem C7_witness :
    (["#FF0000", "#00FF00"] : List String).Nodup ∧
    (["#FF0000", "#00FF00"] : List String).length < 3 ∧
    detect_holiday_theme (some ["#FF0000", "#00FF00"]) 12 25 = none :=
  ⟨by decide, by decide, C7_insufficientEvidenceIsNull.2 _ 12 25 (by decide) (by decide)⟩

/-! ## Claim C8 -/

/-- On every non-empty palette and either mode, the generator succeeds
and returns exactly 5 dots (padding short palettes instead of erroring). -/
theorem gen_scheme_some_five_dots (t : Theme) (mode : String) (hne : t.colors ≠ []) :
    ∃ s, generate_color_scheme (some t) mode = some s ∧ s.dots.length = 5 := by
  have hE : ¬(t.colors.isEmpty = true) := by
    cases hc : t.colors with
    | nil => exact absurd hc hne
    | cons a l => simp
  have hlen : 1 ≤ (List.insertionSort brightLE t.colors).length := by
    rw [List.length_insertionSort]
    cases hc : t.colors with
    | nil => exact absurd hc hne
    | cons a l => simp
  simp only [generate_color_scheme]
  rw [if_neg hE]
  set base := List.insertionSort brightLE t.colors with hbase
  set padded := base ++ List.replicate (5 - base.length) (base.getLast?.getD "") with hpad
  have hplen : padded.length = base.length + (5 - base.length) := by
    rw [hpad, List.length_append, List.length_replicate]
  by_cases hm : mode = "light"
  · rw [if_pos hm]
    refine ⟨_, rfl, ?_⟩
    simp only [List.length_drop, hplen]
    omega
  · rw [if_neg hm]
    refine ⟨_, rfl, ?_⟩
    simp only [List.length_take, hplen]
    omega

/-- In light mode the generated snake is a maximally bright member of the
palette. -/
theorem gen_light_snake_brightest (t : Theme) (s : ColorScheme) (hne : t.colors ≠ [])
    (hgen : generate_color_scheme (some t) "light" = some s) :
    s.snake ∈ t.colors ∧ ∀ c ∈ t.colors, brightness3 c ≤ brightness3 s.snake := by
  have hE : ¬(t.colors.isEmpty = true) := by
    cases hc : t.colors with
    | nil => exact absurd hc hne
    | cons a l => simp
  have hbne : List.insertionSort brightLE t.colors ≠ [] := by
    intro h
    have hl := List.length_insertionSort brightLE t.colors
    rw [h] at hl
    cases hc : t.colors with
    | nil => exact hne hc
    | cons a l => rw [hc] at hl; simp at hl
  simp only [generate_color_scheme, if_true] at hgen
  rw [if_neg hE] at hgen
  obtain rfl : _ = s := Option.some.inj hgen
  have hsnake :
      (List.insertionSort brightLE t.colors
          ++ List.replicate (5 - (List.insertionSort brightLE t.colors).length)
            ((List.insertionSort brightLE t.colors).getLast?.getD "")).getLast?.getD ""
        = (List.insertionSort brightLE t.colors).getLast hbne := by
    rw [getLast?_append_replicate, List.getLast?_eq_getLast_of_ne_nil hbne]
    rfl
  constructor
  · dsimp only
    rw [hsnake]
    exact (List.mem_insertionSort brightLE).mp (List.getLast_mem hbne)
  · intro c hc
    dsimp only
    rw [hsnake]
    exact sorted_brightLE_getLast _ (List.sorted_insertionSort brightLE t.colors) hbne c
      ((List.mem_insertionSort brightLE).mpr hc)

/-- C8: the scheme generator sorts by mean-channel brightness, pads short
palettes with the brightest color to length 5, always returns exactly 5
dots, makes the light snake the brightest palette member, and on the
claim's 6-color palette yields the 5 brightest as light dots with snake
`#FFD700` (dark mode: the 5 darkest, middle-brightness snake). -/
theorem C8_schemeGenerator :
    (∀ (t : Theme) (mode : String), t.colors ≠ [] →
      ∃ s, generate_color_scheme (some t) mode = some s ∧ s.dots.length = 5) ∧
    (∀ (t : Theme) (s : ColorScheme), t.colors ≠ [] →
      generate_color_scheme (some t) "light" = some s →
      s.snake ∈ t.colors ∧ ∀ c ∈ t.colors, brightness3 c ≤ brightness3 s.snake) ∧
    generate_color_scheme (some ⟨"halloween", "Halloween Theme (Orange & Black)",
        ["#000000", "#8B4513", "#FF6347", "#FF8C00", "#FFA500", "#FFD700"]⟩) "light"
      = some ⟨"Halloween Theme (Orange & Black)", "#FFD700",
          ["#8B4513", "#FF8C00", "#FFA500", "#FF6347", "#FFD700"]⟩ ∧
    generate_color_scheme (some ⟨"halloween", "Halloween Theme (Orange & Black)",
        ["#000000", "#8B4513", "#FF6347", "#FF8C00", "#FFA500", "#FFD700"]⟩) "dark"
      = some ⟨"Halloween Theme (Orange & Black)", "#FFA500",
          ["#000000", "#8B4513", "#FF8C00", "#FFA500", "#FF6347"]⟩ ∧
    generate_color_scheme (some ⟨"pad", "Pad", ["#FFFFFF", "#000000"]⟩) "dark"
      = some ⟨"Pad", "#FFFFFF", ["#000000", "#FFFFFF", "#FFFFFF", "#FFFFFF", "#FFFFFF"]⟩ :=
  ⟨gen_scheme_some_five_dots, gen_light_snake_brightest, by decide, by decide, by decide⟩

/-- C8 witness: a one-color palette is padded to 5 dots without error. -/
theorem C8_witness :
    ∃ s, generate_color_scheme (some ⟨"w", "W", ["#FF0000"]⟩) "light" = some s ∧
      s.dots.length = 5 :=
  C8_schemeGenerator.1 ⟨"w", "W", ["#FF0000"]⟩ "light" (by decide)

/-! ## Claim C9 -/

/-- C9: the scheme generator is idempotent on an already-5-length,
already-brightness-sorted palette: both modes produce the palette itself
as dots, and re-running the generator on those dots reproduces the same
dots and snake. -/
theorem C9_idempotentOnSortedFive (t : Theme) (mode : String)
    (h5 : t.colors.length = 5) (hs : t.colors.Sorted brightLE) :
    ∃ s, generate_color_scheme (some t) mode = some s ∧ s.dots = t.colors ∧
      generate_color_scheme (some ⟨t.name, t.description, s.dots⟩) mode = some s := by
  have hE : t.colors.isEmpty = false := by
    cases hc : t.colors with
    | nil => rw [hc] at h5; simp at h5
    | cons a l => rfl
  have hsort : List.insertionSort brightLE t.colors = t.colors := hs.insertionSort_eq
  have htake : t.colors.take 5 = t.colors := by
    conv_lhs => rw [← h5]
    exact t.colors.take_length
  by_cases hm : mode = "light"
  · refine ⟨⟨t.description, t.colors.getLast?.getD "", t.colors⟩, ?_, rfl, ?_⟩ <;>
      simp [generate_color_scheme, hm, hE, hsort, h5]
  · refine ⟨⟨t.description, t.colors.getLast?.getD "", t.colors⟩, ?_, rfl, ?_⟩ <;>
      simp [generate_color_scheme, hm, hE, hsort, h5, htake]

/-- C9 witness: a concrete sorted 5-color palette (the GitHub default
light palette in brightness order) reproduces itself. -/
theorem C9_witness :
    ∃ s, generate_color_scheme (some ⟨"default", "Default",
        ["#216E39", "#30A14E", "#40C463", "#9BE9A8", "#EBEDF0"]⟩) "light" = some s ∧
      s.dots = (⟨"default", "Default",
        ["#216E39", "#30A14E", "#40C463", "#9BE9A8", "#EBEDF0"]⟩ : Theme).colors ∧
      generate_color_scheme (some ⟨"default", "Default", s.dots⟩) "light" = some s :=
  C9_idempotentOnSortedFive
    ⟨"default", "Default", ["#216E39", "#30A14E", "#40C463", "#9BE9A8", "#EBEDF0"]⟩
    "light" (by decide) (by decide)

/-! ## Claim C10 -/

/-- C10: the predefined-palette lookup indeed has no entry for
`thanksgiving` or `new_year`, but the fall-through that the claim says
emits `holiday_detected = false` can never run either: `main`'s result
statement has one opening against two closing braces, so the whole
script dies as a Python SyntaxError and emits nothing at all. -/
theorem C10_noPredefinedPaletteAndNoEmission :
    create_theme_from_name "thanksgiving" = none ∧
    create_theme_from_name "new_year" = none ∧
    countChar '\x7b' mainResultStmtSource = 1 ∧
    countChar '\x7d' mainResultStmtSource = 2 := by decide

end HolidayDetect
